import Mathlib

/-!
Verification of the connection/handle lifecycle layer of the `saprfc-rs`
crate (`src/connection.rs`).  The native SAP NW RFC library is an opaque
external collaborator: we model it as an abstract environment `Env` whose
fields give, for each native entry point, the handle / return code and the
error-info structure the call populates.  Every wrapper operation is
embedded as a pure function of the environment that also returns the exact
sequence of native calls it issued, so that claims about "which native
calls are made" become statements about that trace.
-/

namespace SapRfc

/-- A native handle (`RFC_CONNECTION_HANDLE` etc.); `0` is the null handle. -/
abbrev Handle := Nat

/-- An encoded native wide string (`Vec<SAP_UC>`): a list of code units. -/
abbrev UCStr := List Nat

/-- The structured native error-info value (`RfcErrorInfo`): numeric code,
symbolic key and human message, as described by the Error Translation
component. -/
structure RfcErrorInfo where
  code : Nat
  key : String
  message : String
deriving DecidableEq, Repr

/-- Modelled from the spec: the native status enumeration has exactly one
success value (`RFC_OK`); the concrete numeral is irrelevant to every claim,
only its uniqueness matters. -/
def RFC_OK : Nat := 0

/-- Modelled from the spec: the `is_rc_err!` check from the crate's macro
module (not part of the shown source) classifies a status code as a failure
exactly when it is not the unique success value. -/
def is_rc_err (rc : Nat) : Bool := rc != RFC_OK

/-- One native entry-point invocation, recorded with its arguments.  Traces
of these are returned by every embedded operation. -/
inductive NativeCall where
  | openConnection (params : List (UCStr × UCStr))
  | closeConnection (h : Handle)
  | ping (h : Handle)
  | getFunctionDesc (h : Handle) (name : UCStr)
  | createFunction (desc : Handle)
deriving DecidableEq, Repr

/-- The native library together with the crate's unicode-marshalling
routine, modelled as an oracle.  Each field returns what the corresponding
native entry point would hand back: a handle (or status code) plus the
error-info structure it populates.  `fromStr` is `uc::from_str`, modelled
from the spec: encoding a host string to the native wide representation may
fail with an `EncodingError` carried as an `RfcErrorInfo`. -/
structure Env where
  openConnection : List (UCStr × UCStr) → Handle × RfcErrorInfo
  closeConnection : Handle → Nat × RfcErrorInfo
  pingRc : Handle → Nat × RfcErrorInfo
  getFunctionDesc : Handle → UCStr → Handle × RfcErrorInfo
  createFunction : Handle → Handle × RfcErrorInfo
  fromStr : String → Except RfcErrorInfo UCStr

/-- An SAP NW RFC connection: wraps one native connection handle. -/
structure RfcConnection where
  handle : Handle
deriving DecidableEq, Repr

/-- A remote-enabled function module (`RfcFunction`): holds a reference to
the owning connection's handle, the descriptor handle and the created
function-instance handle. -/
structure RfcFunction where
  connHandle : Handle
  descHandle : Handle
  funcHandle : Handle
deriving DecidableEq, Repr

/-- `RfcConnection::new`: invoke the native open with the pre-encoded
parameter pairs; a null handle means the populated error info is returned
as the failure, otherwise the non-null handle is wrapped. -/
def RfcConnection.new (env : Env) (params : List (UCStr × UCStr)) :
    Except RfcErrorInfo RfcConnection × List NativeCall :=
  let r := env.openConnection params
  (if r.1 = 0 then Except.error r.2 else Except.ok ⟨r.1⟩,
   [NativeCall.openConnection params])

/-- `RfcConnection::ping`: issue the native ping on the live handle;
succeed exactly when its status is the success code. -/
def RfcConnection.ping (env : Env) (c : RfcConnection) :
    Except RfcErrorInfo Unit × List NativeCall :=
  let r := env.pingRc c.handle
  (if is_rc_err r.1 then Except.error r.2 else Except.ok (),
   [NativeCall.ping c.handle])

/-- `RfcConnection::get_function`: encode the name, resolve the function
descriptor by native lookup, then create the function instance from the
descriptor; fail at whichever step yields an encoding error or a null
handle. -/
def RfcConnection.get_function (env : Env) (c : RfcConnection) (name : String) :
    Except RfcErrorInfo RfcFunction × List NativeCall :=
  match env.fromStr name with
  | Except.error e => (Except.error e, [])
  | Except.ok ucName =>
    let d := env.getFunctionDesc c.handle ucName
    if d.1 = 0 then
      (Except.error d.2, [NativeCall.getFunctionDesc c.handle ucName])
    else
      let f := env.createFunction d.1
      if f.1 = 0 then
        (Except.error f.2,
         [NativeCall.getFunctionDesc c.handle ucName, NativeCall.createFunction d.1])
      else
        (Except.ok ⟨c.handle, d.1, f.1⟩,
         [NativeCall.getFunctionDesc c.handle ucName, NativeCall.createFunction d.1])

/-- `RfcConnection::for_dest`: open with the single pair
`("dest", name)`, each component encoded with `uc::from_str`, the key
first, propagating the first encoding failure. -/
def RfcConnection.for_dest (env : Env) (name : String) :
    Except RfcErrorInfo RfcConnection × List NativeCall :=
  match env.fromStr "dest" with
  | Except.error e => (Except.error e, [])
  | Except.ok k =>
    match env.fromStr name with
    | Except.error e => (Except.error e, [])
    | Except.ok v => RfcConnection.new env [(k, v)]

/-- Result of running `Drop::drop` on a connection: the connection state
afterwards, the warnings logged, and the native calls issued. -/
structure DropResult where
  conn : RfcConnection
  warnings : List RfcErrorInfo
  calls : List NativeCall
deriving DecidableEq, Repr

/-- `impl Drop for RfcConnection`: when the handle is non-null, invoke the
native close; a failing status is logged as a warning (never propagated),
and the handle is nulled afterwards.  A null handle is a no-op. -/
def RfcConnection.drop (env : Env) (c : RfcConnection) : DropResult :=
  if c.handle ≠ 0 then
    let r := env.closeConnection c.handle
    { conn := ⟨0⟩,
      warnings := if is_rc_err r.1 then [r.2] else [],
      calls := [NativeCall.closeConnection c.handle] }
  else
    { conn := c, warnings := [], calls := [] }

/-- `RfcConnectionBuilder`: accumulates named string parameters
(`HashMap<String, String>` in the source, embedded as a key-unique
association list). -/
structure RfcConnectionBuilder where
  params : List (String × String)
deriving DecidableEq, Repr

/-- `RfcConnectionBuilder::new`: the empty mapping. -/
def RfcConnectionBuilder.new : RfcConnectionBuilder := ⟨[]⟩

/-- `RfcConnectionBuilder::set_param`: `HashMap::insert` semantics — if the
key is present its value is replaced in place, otherwise the pair is
added. -/
def RfcConnectionBuilder.set_param (b : RfcConnectionBuilder)
    (key value : String) : RfcConnectionBuilder :=
  if b.params.any (fun p => p.1 == key) then
    ⟨b.params.map (fun p => if p.1 == key then (key, value) else p)⟩
  else
    ⟨b.params ++ [(key, value)]⟩

/-- Encoding of one stored `(name, value)` pair in `build`: the name then
the value through `uc::from_str`, short-circuiting on the first failure. -/
def pair_encode (env : Env) (p : String × String) :
    Except RfcErrorInfo (UCStr × UCStr) := do
  let ek ← env.fromStr p.1
  let ev ← env.fromStr p.2
  pure (ek, ev)

/-- The `collect::<Result<Vec<_>>>` over the builder's entries: encode the
pairs in order, aborting with the first pair's failure. -/
def encode_params (env : Env) :
    List (String × String) → Except RfcErrorInfo (List (UCStr × UCStr))
  | [] => Except.ok []
  | p :: rest => do
    let q ← pair_encode env p
    let qs ← encode_params env rest
    pure (q :: qs)

/-- `RfcConnectionBuilder::build`: encode every stored pair, then perform
exactly one `RfcConnection::new` with the encoded pairs; an encoding
failure aborts before any native call. -/
def RfcConnectionBuilder.build (env : Env) (b : RfcConnectionBuilder) :
    Except RfcErrorInfo RfcConnection × List NativeCall :=
  match encode_params env b.params with
  | Except.error e => (Except.error e, [])
  | Except.ok ps => RfcConnection.new env ps

/-- A concrete test environment used by the closed witness theorems:
opening with a non-empty parameter list yields handle `7`, closing handle
`7` succeeds while any other close fails, ping succeeds only on handle `7`,
descriptor lookup of a non-empty name yields `11`, creating from descriptor
`11` yields `13`, and encoding fails exactly on strings of length at least
five. -/
def envA : Env where
  openConnection := fun ps =>
    (if ps.length = 0 then 0 else 7, ⟨1, "RFC_INVALID_PARAMETER", "open failed"⟩)
  closeConnection := fun h =>
    (if h = 7 then RFC_OK else 1, ⟨2, "RFC_CLOSE_FAILURE", "close failed"⟩)
  pingRc := fun h =>
    (if h = 7 then RFC_OK else 1, ⟨3, "RFC_COMMUNICATION_FAILURE", "ping failed"⟩)
  getFunctionDesc := fun _ n =>
    (if n.isEmpty then 0 else 11, ⟨4, "FU_NOT_FOUND", "lookup failed"⟩)
  createFunction := fun d =>
    (if d = 11 then 13 else 0, ⟨5, "RFC_CREATE_FAILURE", "create failed"⟩)
  fromStr := fun s =>
    if s.length ≥ 5 then Except.error ⟨6, "RFC_CONVERSION_FAILURE", "encoding failed"⟩
    else Except.ok (s.data.map Char.toNat)

/-- C1: `RfcConnection::new` returns the error-info value populated by the
native open as `Err` exactly when that call yields the null handle, and
otherwise returns `Ok` wrapping the non-null handle the native call
returned; every connection produced by `new` carries a non-null handle, so
no usable connection ever results from a failed open. -/
theorem C1_new_err_iff_null_handle (env : Env) (params : List (UCStr × UCStr)) :
    ((env.openConnection params).1 = 0 →
      (RfcConnection.new env params).1 = Except.error (env.openConnection params).2) ∧
    ((env.openConnection params).1 ≠ 0 →
      (RfcConnection.new env params).1 = Except.ok ⟨(env.openConnection params).1⟩) ∧
    (∀ c, (RfcConnection.new env params).1 = Except.ok c → c.handle ≠ 0) := by
  unfold RfcConnection.new
  refine ⟨fun h => by simp [h], fun h => by simp [h], fun c hc => ?_⟩
  by_cases h : (env.openConnection params).1 = 0
  · simp [h] at hc
  · simp [h] at hc
    rw [← hc]
    exact h

/-- Closed witness for C1 at concrete inputs of the test environment. -/
theorem C1_witness :
    (RfcConnection.new envA []).1 =
      Except.error ⟨1, "RFC_INVALID_PARAMETER", "open failed"⟩ ∧
    (RfcConnection.new envA [([0], [1])]).1 = Except.ok ⟨7⟩ :=
  ⟨(C1_new_err_iff_null_handle envA []).1 rfl,
   (C1_new_err_iff_null_handle envA [([0], [1])]).2.1 (by decide)⟩

/-- C2: `Drop` invokes the native close exactly once when the handle is
non-null and not at all when it is null; after a drop the handle is always
null, so dropping the resulting state again issues no native call: the
second release is a no-op and the native resource is never
double-released. -/
theorem C2_drop_releases_once (env : Env) (c : RfcConnection) :
    (c.handle ≠ 0 →
      (RfcConnection.drop env c).calls = [NativeCall.closeConnection c.handle]) ∧
    (c.handle = 0 → (RfcConnection.drop env c).calls = []) ∧
    (RfcConnection.drop env c).conn.handle = 0 ∧
    (RfcConnection.drop env (RfcConnection.drop env c).conn).calls = [] := by
  by_cases h : c.handle = 0 <;>
    simp [RfcConnection.drop, h]

/-- Closed witness for C2 at concrete inputs of the test environment. -/
theorem C2_witness :
    (RfcConnection.drop envA ⟨7⟩).calls = [NativeCall.closeConnection 7] ∧
    (RfcConnection.drop envA ⟨0⟩).calls = [] :=
  ⟨(C2_drop_releases_once envA ⟨7⟩).1 (by decide),
   (C2_drop_releases_once envA ⟨0⟩).2.1 rfl⟩

/-- C5: teardown never propagates an error: for a connection with a
non-null handle, `Drop` attempts the native close; when the close status is
a failure the error info only appears in the warning log while the handle
is still nulled, and when the close succeeds nothing is logged — in either
case teardown completes and no error value reaches the caller. -/
theorem C5_teardown_never_errors (env : Env) (c : RfcConnection)
    (h : c.handle ≠ 0) :
    (RfcConnection.drop env c).calls = [NativeCall.closeConnection c.handle] ∧
    (RfcConnection.drop env c).conn.handle = 0 ∧
    (is_rc_err (env.closeConnection c.handle).1 = true →
      (RfcConnection.drop env c).warnings = [(env.closeConnection c.handle).2]) ∧
    (is_rc_err (env.closeConnection c.handle).1 = false →
      (RfcConnection.drop env c).warnings = []) := by
  by_cases hrc : is_rc_err (env.closeConnection c.handle).1 <;>
    simp [RfcConnection.drop, h, hrc]

/-- Closed witness for C5: dropping handle `5` in the test environment, the
close fails, the failure is only logged and the handle is still nulled. -/
theorem C5_witness :
    (RfcConnection.drop envA ⟨5⟩).warnings =
      [⟨2, "RFC_CLOSE_FAILURE", "close failed"⟩] ∧
    (RfcConnection.drop envA ⟨5⟩).conn.handle = 0 :=
  ⟨(C5_teardown_never_errors envA ⟨5⟩ (by decide)).2.2.1 (by decide),
   (C5_teardown_never_errors envA ⟨5⟩ (by decide)).2.1⟩

/-- C8: `ping` issues exactly one native ping on the live handle and
succeeds exactly when the native status is the unique success code,
returning the populated error info otherwise; the connection value itself
is not modified by `ping` (it is a pure function of the handle). -/
theorem C8_ping_ok_iff_success (env : Env) (c : RfcConnection) :
    (RfcConnection.ping env c).2 = [NativeCall.ping c.handle] ∧
    ((RfcConnection.ping env c).1 = Except.ok () ↔
      (env.pingRc c.handle).1 = RFC_OK) ∧
    ((env.pingRc c.handle).1 ≠ RFC_OK →
      (RfcConnection.ping env c).1 = Except.error (env.pingRc c.handle).2) := by
  by_cases h : (env.pingRc c.handle).1 = RFC_OK <;>
    simp [RfcConnection.ping, is_rc_err, h]

/-- Closed witness for C8: pinging the live handle `7` of the test
environment succeeds, pinging handle `5` fails with the populated error. -/
theorem C8_witness :
    (RfcConnection.ping envA ⟨7⟩).1 = Except.ok () ∧
    (RfcConnection.ping envA ⟨5⟩).1 =
      Except.error ⟨3, "RFC_COMMUNICATION_FAILURE", "ping failed"⟩ :=
  ⟨(C8_ping_ok_iff_success envA ⟨7⟩).2.1.mpr rfl,
   (C8_ping_ok_iff_success envA ⟨5⟩).2.2 (by decide)⟩

/-- C10: when encoding the function name fails, `get_function` returns that
encoding error and issues no native call at all: neither the descriptor
lookup nor the instance creation appears in the trace. -/
theorem C10_get_function_no_call_on_encoding_failure (env : Env)
    (c : RfcConnection) (name : String) (e : RfcErrorInfo)
    (h : env.fromStr name = Except.error e) :
    RfcConnection.get_function env c name = (Except.error e, []) := by
  unfold RfcConnection.get_function
  rw [h]

/-- Closed witness for C10: the name `"toolong"` fails to encode in the
test environment and `get_function` performs no native call. -/
theorem C10_witness :
    RfcConnection.get_function envA ⟨7⟩ "toolong" =
      (Except.error ⟨6, "RFC_CONVERSION_FAILURE", "encoding failed"⟩, []) :=
  C10_get_function_no_call_on_encoding_failure envA ⟨7⟩ "toolong" _ rfl

/-- C7: on a successfully encoded name, `get_function` first resolves the
descriptor by native lookup and then creates the function instance: a null
descriptor handle yields that step's error info after exactly the lookup
call; a non-null descriptor but null instance handle yields the creation
step's error info after both calls; and when both handles are non-null the
returned function holds a reference to this connection's handle together
with the two native handles. -/
theorem C7_get_function_two_steps (env : Env) (c : RfcConnection)
    (name : String) (ucName : UCStr)
    (henc : env.fromStr name = Except.ok ucName) :
    ((env.getFunctionDesc c.handle ucName).1 = 0 →
      RfcConnection.get_function env c name =
        (Except.error (env.getFunctionDesc c.handle ucName).2,
         [NativeCall.getFunctionDesc c.handle ucName])) ∧
    ((env.getFunctionDesc c.handle ucName).1 ≠ 0 →
      ((env.createFunction (env.getFunctionDesc c.handle ucName).1).1 = 0 →
        RfcConnection.get_function env c name =
          (Except.error (env.createFunction (env.getFunctionDesc c.handle ucName).1).2,
           [NativeCall.getFunctionDesc c.handle ucName,
            NativeCall.createFunction (env.getFunctionDesc c.handle ucName).1])) ∧
      ((env.createFunction (env.getFunctionDesc c.handle ucName).1).1 ≠ 0 →
        RfcConnection.get_function env c name =
          (Except.ok ⟨c.handle, (env.getFunctionDesc c.handle ucName).1,
             (env.createFunction (env.getFunctionDesc c.handle ucName).1).1⟩,
           [NativeCall.getFunctionDesc c.handle ucName,
            NativeCall.createFunction (env.getFunctionDesc c.handle ucName).1]))) := by
  unfold RfcConnection.get_function
  rw [henc]
  refine ⟨fun hd => by simp [hd], fun hd => ⟨fun hf => ?_, fun hf => ?_⟩⟩ <;>
    simp [hd, hf]

/-- Closed witness for C7: looking up `"fn"` on the live handle `7` of the
test environment resolves descriptor `11` and instance `13`, and the
returned function references the connection's handle. -/
theorem C7_witness :
    RfcConnection.get_function envA ⟨7⟩ "fn" =
      (Except.ok ⟨7, 11, 13⟩,
       [NativeCall.getFunctionDesc 7 [102, 110], NativeCall.createFunction 11]) :=
  ((C7_get_function_two_steps envA ⟨7⟩ "fn" [102, 110] rfl).2
    (by decide)).2 (by decide)

/-- C6: `for_dest` is extensionally equal to building with the single
parameter `"dest"` bound to the given name, and when both components
encode successfully it performs exactly `RfcConnection::new` on the
singleton encoded pair. -/
theorem C6_for_dest_singleton (env : Env) (s : String) :
    RfcConnection.for_dest env s =
      RfcConnectionBuilder.build env (RfcConnectionBuilder.new.set_param "dest" s) ∧
    (∀ k v, env.fromStr "dest" = Except.ok k → env.fromStr s = Except.ok v →
      RfcConnection.for_dest env s = RfcConnection.new env [(k, v)]) := by
  constructor
  · show _ = RfcConnectionBuilder.build env ⟨[("dest", s)]⟩
    unfold RfcConnectionBuilder.build encode_params pair_encode
      RfcConnection.for_dest
    cases hd : env.fromStr "dest" <;> cases hs : env.fromStr s <;>
      simp [hd, hs, encode_params, Except.bind, bind, pure, Except.pure]
  · intro k v hk hv
    unfold RfcConnection.for_dest
    rw [hk, hv]

/-- Closed witness for C6: with the test environment and destination
`"abc"`, `for_dest` equals the singleton-parameter open on the encoded
pair. -/
theorem C6_witness :
    RfcConnection.for_dest envA "abc" =
      RfcConnection.new envA [([100, 101, 115, 116], [97, 98, 99])] :=
  (C6_for_dest_singleton envA "abc").2 [100, 101, 115, 116] [97, 98, 99] rfl rfl

/-- An `encode_params` failure is the failure of one of the stored pairs. -/
theorem encode_params_error_mem (env : Env) :
    ∀ (l : List (String × String)) (e : RfcErrorInfo),
      encode_params env l = Except.error e →
      ∃ p, p ∈ l ∧ pair_encode env p = Except.error e := by
  intro l
  induction l with
  | nil => intro e h; simp [encode_params] at h
  | cons p rest ih =>
    intro e h
    unfold encode_params at h
    cases hp : pair_encode env p with
    | error e' =>
      rw [hp] at h
      simp [Except.bind, bind] at h
      exact ⟨p, List.mem_cons_self p rest, by rw [hp, h]⟩
    | ok q =>
      rw [hp] at h
      simp only [bind, Except.bind] at h
      cases hr : encode_params env rest with
      | error e'' =>
        rw [hr] at h
        simp [pure, Except.pure] at h
        obtain ⟨p', hp', he'⟩ := ih e'' hr
        exact ⟨p', List.mem_cons_of_mem p hp', by rw [he', h]⟩
      | ok qs =>
        rw [hr] at h
        simp [pure, Except.pure] at h

/-- An `encode_params` success encodes the stored pairs pointwise, in
order. -/
theorem encode_params_ok_pointwise (env : Env) :
    ∀ (l : List (String × String)) (ps : List (UCStr × UCStr)),
      encode_params env l = Except.ok ps →
      List.Forall₂ (fun p q => pair_encode env p = Except.ok q) l ps := by
  intro l
  induction l with
  | nil =>
    intro ps h
    simp [encode_params, Except.pure] at h
    rw [h]
    exact List.Forall₂.nil
  | cons p rest ih =>
    intro ps h
    unfold encode_params at h
    cases hp : pair_encode env p with
    | error e' => rw [hp] at h; simp [Except.bind, bind] at h
    | ok q =>
      rw [hp] at h
      simp only [bind, Except.bind] at h
      cases hr : encode_params env rest with
      | error e'' => rw [hr] at h; simp [pure, Except.pure] at h
      | ok qs =>
        rw [hr] at h
        simp [pure, Except.pure] at h
        rw [← h]
        exact List.Forall₂.cons hp (ih qs hr)

/-- C3: if encoding any stored pair fails, `build` returns that pair's
encoding error and issues no native call whatsoever — the open entry point
is never reached; otherwise `build` issues exactly one open call carrying
every encoded pair, pointwise in the order stored. -/
theorem C3_build_encoding_atomic (env : Env) (b : RfcConnectionBuilder) :
    (∀ e, encode_params env b.params = Except.error e →
      (∃ p, p ∈ b.params ∧ pair_encode env p = Except.error e) ∧
      RfcConnectionBuilder.build env b = (Except.error e, [])) ∧
    (∀ ps, encode_params env b.params = Except.ok ps →
      List.Forall₂ (fun p q => pair_encode env p = Except.ok q) b.params ps ∧
      (RfcConnectionBuilder.build env b).2 = [NativeCall.openConnection ps]) := by
  constructor
  · intro e h
    refine ⟨encode_params_error_mem env b.params e h, ?_⟩
    unfold RfcConnectionBuilder.build
    rw [h]
  · intro ps h
    refine ⟨encode_params_ok_pointwise env b.params ps h, ?_⟩
    unfold RfcConnectionBuilder.build
    rw [h]
    rfl

/-- Closed witness for C3: in the test environment the value of the pair
`("k", "toolong")` fails to encode, `build` returns the encoding error and
makes no native call; a builder whose single pair encodes issues exactly
one open call. -/
theorem C3_witness :
    RfcConnectionBuilder.build envA ⟨[("k", "toolong")]⟩ =
      (Except.error ⟨6, "RFC_CONVERSION_FAILURE", "encoding failed"⟩, []) ∧
    (RfcConnectionBuilder.build envA ⟨[("k", "v")]⟩).2 =
      [NativeCall.openConnection [([107], [118])]] :=
  ⟨((C3_build_encoding_atomic envA ⟨[("k", "toolong")]⟩).1 _ rfl).2,
   ((C3_build_encoding_atomic envA ⟨[("k", "v")]⟩).2 [([107], [118])] rfl).2⟩

/-- Two successive `set_param` calls on the same key behave as a single
replacement of that key's value: a replacement in place when the key was
already present, an addition of the final value otherwise. -/
theorem set_param_twice (b : RfcConnectionBuilder) (k a v : String) :
    ((b.set_param k a).set_param k v).params =
      if b.params.any (fun p => p.1 == k) then
        b.params.map (fun p => if p.1 == k then (k, v) else p)
      else b.params ++ [(k, v)] := by
  unfold RfcConnectionBuilder.set_param
  by_cases hany : b.params.any (fun p => p.1 == k)
  · simp only [hany, if_true]
    have hany2 : (b.params.map fun p => if p.1 == k then (k, a) else p).any
        (fun p => p.1 == k) = true := by
      obtain ⟨p₀, hp₀, hp₀k⟩ := List.any_eq_true.mp hany
      refine List.any_eq_true.mpr
        ⟨if p₀.1 == k then (k, a) else p₀, List.mem_map_of_mem _ hp₀, ?_⟩
      simp [hp₀k]
    simp only [hany2, if_true, List.map_map]
    refine List.map_congr_left fun p _ => ?_
    by_cases hk : (p.1 == k) = true <;>
      simp [hk, Function.comp]
  · simp only [hany, if_false]
    have hnone : ∀ p ∈ b.params, (p.1 == k) = false := by
      intro p hp
      have := List.any_eq_false.mp (Bool.of_not_eq_true hany) p hp
      simpa using this
    have hany2 : (b.params ++ [(k, a)]).any (fun p => p.1 == k) = true := by
      rw [List.any_append]
      simp
    simp [hany2]
    refine (List.map_congr_left fun p hp => ?_).trans (List.map_id b.params)
    simp only [id_eq, ite_eq_right_iff]
    intro hEq
    have hc := hnone p hp
    rw [hEq] at hc
    simp at hc

/-- Filtering a key-unique list on a present key `k` after replacing every
`k` entry by `(k, v)` yields exactly the single pair `(k, v)`. -/
theorem filter_replace_unique (k v : String) :
    ∀ (l : List (String × String)), (l.map Prod.fst).Nodup →
      l.any (fun p => p.1 == k) = true →
      (l.map fun p => if p.1 == k then (k, v) else p).filter
        (fun p => p.1 == k) = [(k, v)] := by
  intro l
  induction l with
  | nil => intro _ h; simp at h
  | cons p rest ih =>
    intro hnd hany
    obtain ⟨hmem, hnd'⟩ := List.nodup_cons.mp (List.map_cons Prod.fst p rest ▸ hnd)
    by_cases hk : (p.1 == k) = true
    · have hpk : p.1 = k := beq_iff_eq.mp hk
      have htail : (rest.map fun q => if q.1 == k then (k, v) else q).filter
          (fun q => q.1 == k) = [] := by
        rw [List.filter_eq_nil_iff]
        intro q hq
        obtain ⟨q', hq', hgq⟩ := List.mem_map.mp hq
        have hne : q'.1 ≠ k := by
          intro hEq
          refine hmem ?_
          rw [hpk, ← hEq]
          exact List.mem_map_of_mem Prod.fst hq'
        have hq'k : (q'.1 == k) = false := beq_eq_false_iff_ne.mpr hne
        rw [← hgq]
        simp [hq'k]
      simp only [List.map_cons, hk, if_true, List.filter_cons, beq_self_eq_true,
        if_true, htail]
    · have hkf : (p.1 == k) = false := Bool.of_not_eq_true hk
      have hanyr : rest.any (fun q => q.1 == k) = true := by
        simp only [List.any_cons, hkf, Bool.false_or] at hany
        exact hany
      simp only [List.map_cons, hkf, Bool.false_eq_true, if_false,
        List.filter_cons, hkf]
      exact ih hnd' hanyr

/-- C4: last write wins: after `set_param k a` followed by `set_param k v`
on a key-unique builder, filtering the stored mapping on key `k` yields
exactly the single pair `(k, v)`, every stored entry with key `k` carries
value `v` (so the earlier value `a` never reaches the open call as the
binding of `k`), and a successful build issues exactly one open call with
the encoded pairs of that final mapping. -/
theorem C4_last_write_wins (env : Env) (b : RfcConnectionBuilder)
    (k a v : String) (hnd : (b.params.map Prod.fst).Nodup) :
    ((b.set_param k a).set_param k v).params.filter (fun p => p.1 == k) =
      [(k, v)] ∧
    (∀ p, p ∈ ((b.set_param k a).set_param k v).params → p.1 = k → p.2 = v) ∧
    (∀ ps, encode_params env ((b.set_param k a).set_param k v).params =
        Except.ok ps →
      (RfcConnectionBuilder.build env ((b.set_param k a).set_param k v)).2 =
        [NativeCall.openConnection ps]) := by
  refine ⟨?_, ?_, ?_⟩
  · rw [set_param_twice]
    by_cases hany : b.params.any (fun p => p.1 == k)
    · rw [if_pos hany]
      exact filter_replace_unique k v b.params hnd hany
    · rw [if_neg hany, List.filter_append]
      have h1 : b.params.filter (fun p => p.1 == k) = [] := by
        rw [List.filter_eq_nil_iff]
        intro p hp
        have := List.any_eq_false.mp (Bool.of_not_eq_true hany) p hp
        simpa using this
      simp [h1]
  · intro p hp hpk
    rw [set_param_twice] at hp
    by_cases hany : b.params.any (fun p => p.1 == k)
    · rw [if_pos hany] at hp
      obtain ⟨q, hq, hgq⟩ := List.mem_map.mp hp
      by_cases hk : (q.1 == k) = true
      · rw [if_pos hk] at hgq
        rw [← hgq]
      · rw [if_neg hk] at hgq
        exact absurd (beq_iff_eq.mpr (hgq ▸ hpk)) hk
    · rw [if_neg hany] at hp
      rcases List.mem_append.mp hp with h | h
      · have := List.any_eq_false.mp (Bool.of_not_eq_true hany) p h
        simp [hpk] at this
      · rw [List.mem_singleton.mp h]
  · intro ps h
    unfold RfcConnectionBuilder.build
    rw [h]
    rfl

/-- Closed witness for C4: setting `"dest"` to `"A"` then to `"B"` on the
empty builder stores only `("dest", "B")`, and building in the test
environment issues exactly one open call carrying only the encoding of
`"B"`. -/
theorem C4_witness :
    ((RfcConnectionBuilder.new.set_param "dest" "A").set_param "dest" "B").params.filter
      (fun p => p.1 == "dest") = [("dest", "B")] ∧
    (RfcConnectionBuilder.build envA
      ((RfcConnectionBuilder.new.set_param "dest" "A").set_param "dest" "B")).2 =
      [NativeCall.openConnection [([100, 101, 115, 116], [66])]] :=
  ⟨(C4_last_write_wins envA RfcConnectionBuilder.new "dest" "A" "B"
      List.nodup_nil).1,
   (C4_last_write_wins envA RfcConnectionBuilder.new "dest" "A" "B"
      List.nodup_nil).2.2 [([100, 101, 115, 116], [66])] rfl⟩

end SapRfc
